import Mathlib

/-!
Shallow embedding of `src/file_manager.rs` from the GFXFileManager crate:
the safety-wrapping proxy around the native GFX archive component.

Conventions used throughout:
* Rust byte strings (`&str` contents) are `List Nat` of byte values.
* The native component is a black box; each wrapper operation is modelled
  as a function of the values the native calls would return, and produces
  the list of native calls the wrapper issues (its trace) together with
  the value the wrapper hands back to the caller.
* A Rust panic is modelled as the `none` branch of an `Option` result; a
  panicking call issues no native calls beyond those made before it.
* Machine integers are `Int`/`Nat` with explicit reduction modulo 2^32
  where the 32-bit target (the `thiscall` ABI forces an x86 32-bit
  build, so `isize`/`usize` are 32-bit) makes overflow observable.
-/

namespace GFX

/-- Bytes of a Rust string slice (no terminator). -/
abbrev RStr := List Nat

/-- True when the byte string holds a NUL byte; `CString::new` rejects
exactly these inputs (source: `cstring!` macro, lines 22–24). -/
def hasNul (s : RStr) : Bool := s.contains 0

/-- Model of the `cstring!` macro (lines 22–24): `CString::new(s).expect(...)`.
`CString::new` fails precisely when `s` holds a NUL byte, and `expect`
turns that failure into a panic (`none` here); on success the C string is
the bytes followed by the terminating NUL. -/
def cstring? (s : RStr) : Option RStr :=
  if hasNul s then none else some (s ++ [0])

/-- A UTF-8 continuation byte: 0x80–0xBF. -/
def isUtf8Cont (b : Nat) : Bool := 0x80 ≤ b && b ≤ 0xBF

/-- UTF-8 validity of a byte sequence, following the standard table
(RFC 3629): this is the check Rust performs inside `String::from_utf8`. -/
def utf8Valid : List Nat → Bool
  | [] => true
  | b :: r =>
    if b ≤ 0x7F then utf8Valid r
    else if 0xC2 ≤ b && b ≤ 0xDF then
      match r with
      | c1 :: r1 => isUtf8Cont c1 && utf8Valid r1
      | [] => false
    else if b = 0xE0 then
      match r with
      | c1 :: c2 :: r2 => (0xA0 ≤ c1 && c1 ≤ 0xBF) && isUtf8Cont c2 && utf8Valid r2
      | _ => false
    else if (0xE1 ≤ b && b ≤ 0xEC) || b = 0xEE || b = 0xEF then
      match r with
      | c1 :: c2 :: r2 => isUtf8Cont c1 && isUtf8Cont c2 && utf8Valid r2
      | _ => false
    else if b = 0xED then
      match r with
      | c1 :: c2 :: r2 => (0x80 ≤ c1 && c1 ≤ 0x9F) && isUtf8Cont c2 && utf8Valid r2
      | _ => false
    else if b = 0xF0 then
      match r with
      | c1 :: c2 :: c3 :: r3 =>
          (0x90 ≤ c1 && c1 ≤ 0xBF) && isUtf8Cont c2 && isUtf8Cont c3 && utf8Valid r3
      | _ => false
    else if 0xF1 ≤ b && b ≤ 0xF3 then
      match r with
      | c1 :: c2 :: c3 :: r3 =>
          isUtf8Cont c1 && isUtf8Cont c2 && isUtf8Cont c3 && utf8Valid r3
      | _ => false
    else if b = 0xF4 then
      match r with
      | c1 :: c2 :: c3 :: r3 =>
          (0x80 ≤ c1 && c1 ≤ 0x8F) && isUtf8Cont c2 && isUtf8Cont c3 && utf8Valid r3
      | _ => false
    else false

/-- Model of `String::from_utf8` as used on lines 285, 300, 324: a Rust
`String` is its UTF-8 bytes, so on valid input the bytes come back
unchanged as `ok`; on invalid input the result is `error` carrying the
original bytes (a `FromUtf8Error` retains the input vector) — never a
panic, never a lossy replacement. -/
def string_from_utf8 (bs : List Nat) : Except (List Nat) (List Nat) :=
  if utf8Valid bs then Except.ok bs else Except.error bs

/-- The access-mode enumeration (source lines 39–44). The three variants
carry the native bit patterns written in the source. -/
inductive Access where
  | OpenExisting
  | ShareRead
  | CreateAlways
deriving DecidableEq

/-- The discriminant literal attached to each `Access` variant in the
source: `OpenExisting = 0`, `ShareRead = 0x80000000`,
`CreateAlways = 0x40000000` (lines 41–43). -/
def Access.discr : Access → Nat
  | Access.OpenExisting => 0
  | Access.ShareRead => 0x80000000
  | Access.CreateAlways => 0x40000000

/-- Two's-complement reinterpretation of a bit pattern as a 32-bit signed
integer: the meaning of `#[allow(overflowing_literals)]` discriminants on
the 32-bit target and of the `as i32` casts at the call sites. -/
def wrap32 (n : Nat) : Int :=
  if n % 2 ^ 32 < 2 ^ 31 then (n % 2 ^ 32 : Nat) else (n % 2 ^ 32 : Nat) - 2 ^ 32

/-- The `i32` value produced by `access as i32` at the native call sites
(lines 169, 181). -/
def Access.toI32 (a : Access) : Int := wrap32 a.discr

/-- The `u32` bit pattern of an `Access` variant, used to compare with the
patterns `From<u32>` matches on. -/
def Access.toU32 (a : Access) : Nat := a.discr % 2 ^ 32

/-- Model of `impl From<u32> for Access` (lines 46–55). The wildcard arm
panics (`none` here): an unrecognized pattern is rejected fatally, no
`Access` value is returned. -/
def Access.fromU32 (mode : Nat) : Option Access :=
  if mode = 0 then some Access.OpenExisting
  else if mode = 0x80000000 then some Access.ShareRead
  else if mode = 0x40000000 then some Access.CreateAlways
  else none

/-- The container-mode enumeration (source lines 57–61): `CP = 1`, `CW = 2`. -/
inductive Mode where
  | CP
  | CW
deriving DecidableEq

/-- Declared discriminant of each `Mode` variant. -/
def Mode.discr : Mode → Nat
  | Mode.CP => 1
  | Mode.CW => 2

/-- The `i32` value produced by `mode as i32` (line 90). -/
def Mode.toI32 (m : Mode) : Int := wrap32 m.discr

/-- Model of `impl From<i32> for Mode` (lines 63–71); the wildcard arm
panics (`none`). -/
def Mode.fromI32 (mode : Int) : Option Mode :=
  if mode = 1 then some Mode.CP
  else if mode = 2 then some Mode.CW
  else none

/-- One call across the FFI boundary, as issued by the wrapper through the
dispatch table (or the two free factory/release entry points). String
arguments record the marshalled C string (bytes with the trailing NUL). -/
inductive NativeCall where
  | createObject (mode version : Int)
  | releaseObject
  | createContainer (filename password : RStr)
  | openContainer (filename password : RStr) (mode : Int)
  | closeContainer
  | isOpen
  | closeAllFiles
  | openFile (filename : RStr) (access unknown : Int)
  | openFileCj (filename : RStr) (access unknown : Int)
  | createFile (filename : RStr) (unknown : Int)
  | createFileCj (filename : RStr) (unknown : Int)
  | deleteFile (filename : RStr)
  | createDir (name : RStr)
  | deleteDir (name : RStr)
  | changeDir (name : RStr)
  | getDirName (sizeArg : Nat)
  | setVirtualPath (path : RStr)
  | getVirtualPath
  | findFirstFile (pattern : RStr)
  | fileNameFromHandle (count : Nat)
  | importDir (srcdir dstdir name : RStr) (createTargetDir : Bool)
  | importFile (srcdir dstdir name : RStr) (createTargetDir : Bool)
  | exportDir (srcdir dstdir name : RStr) (createTargetDir : Bool)
  | exportFile (srcdir dstdir name : RStr) (createTargetDir : Bool)
  | fileExists (name : RStr) (flags : Int)
  | forEachEntry (filter : RStr)
deriving DecidableEq

namespace GFXFileManager

/-!
Each wrapper method of `GFXFileManager` is modelled as a function from its
Rust arguments, plus the value the native slot would return, to the pair
(trace of native calls issued, value handed back to the caller). A `none`
caller value is a panic; every panic in these methods comes from the
`cstring!` conversions, which all happen before the single native call, so
the trace is empty in that case.
-/

/-- `GFXFileManager::create_container` (lines 117–121): converts both
strings with `cstring!`, then issues the native `create_container` call
and returns the nonzero test of its result. -/
def create_container (ret : Int) (filename password : RStr) :
    List NativeCall × Option Bool :=
  match cstring? filename with
  | none => ([], none)
  | some f =>
    match cstring? password with
    | none => ([], none)
    | some p => ([NativeCall.createContainer f p], some (ret != 0))

/-- `GFXFileManager::open_container` (lines 130–134). -/
def open_container (ret : Int) (filename password : RStr) (mode : Int) :
    List NativeCall × Option Bool :=
  match cstring? filename with
  | none => ([], none)
  | some f =>
    match cstring? password with
    | none => ([], none)
    | some p => ([NativeCall.openContainer f p mode], some (ret != 0))

/-- `GFXFileManager::close_container` (lines 137–139): delegates to the
native `close_container` slot unconditionally (no state check appears in
the method body) and returns the nonzero test of its result. -/
def close_container (ret : Int) : List NativeCall × Bool :=
  ([NativeCall.closeContainer], ret != 0)

/-- `GFXFileManager::open_file` (lines 167–170): one `cstring!`
conversion, then the native `open_file` call with `access as i32`; the
returned handle is wrapped into a `File` by `File::new`. -/
def open_file (handleRet : Int) (filename : RStr) (access : Access) (unknown : Int) :
    List NativeCall × Option Int :=
  match cstring? filename with
  | none => ([], none)
  | some f => ([NativeCall.openFile f (Access.toI32 access) unknown], some handleRet)

/-- `GFXFileManager::open_file_cj` (lines 179–182). -/
def open_file_cj (handleRet : Int) (filename : RStr) (access : Access) (unknown : Int) :
    List NativeCall × Option Int :=
  match cstring? filename with
  | none => ([], none)
  | some f => ([NativeCall.openFileCj f (Access.toI32 access) unknown], some handleRet)

/-- `GFXFileManager::create_file` (lines 198–201). -/
def create_file (handleRet : Int) (filename : RStr) (unknown : Int) :
    List NativeCall × Option Int :=
  match cstring? filename with
  | none => ([], none)
  | some f => ([NativeCall.createFile f unknown], some handleRet)

/-- `GFXFileManager::create_file_cj` (lines 211–214). -/
def create_file_cj (handleRet : Int) (filename : RStr) (unknown : Int) :
    List NativeCall × Option Int :=
  match cstring? filename with
  | none => ([], none)
  | some f => ([NativeCall.createFileCj f unknown], some handleRet)

/-- `GFXFileManager::delete_file` (lines 217–220). -/
def delete_file (ret : Int) (filename : RStr) : List NativeCall × Option Int :=
  match cstring? filename with
  | none => ([], none)
  | some f => ([NativeCall.deleteFile f], some ret)

/-- `GFXFileManager::create_directory` (lines 256–259). -/
def create_directory (ret : Int) (name : RStr) : List NativeCall × Option Bool :=
  match cstring? name with
  | none => ([], none)
  | some n => ([NativeCall.createDir n], some (ret != 0))

/-- `GFXFileManager::delete_directory` (lines 262–265). -/
def delete_directory (ret : Int) (name : RStr) : List NativeCall × Option Bool :=
  match cstring? name with
  | none => ([], none)
  | some n => ([NativeCall.deleteDir n], some (ret != 0))

/-- `GFXFileManager::change_directory` (lines 273–276). -/
def change_directory (ret : Int) (name : RStr) : List NativeCall × Option Bool :=
  match cstring? name with
  | none => ([], none)
  | some n => ([NativeCall.changeDir n], some (ret != 0))

/-- `GFXFileManager::set_virtual_path` (lines 288–291). -/
def set_virtual_path (ret : Int) (path : RStr) : List NativeCall × Option Bool :=
  match cstring? path with
  | none => ([], none)
  | some p => ([NativeCall.setVirtualPath p], some (ret != 0))

/-- `GFXFileManager::find_first_file` (lines 303–306): converts the
pattern, then issues the native call; the Rust method returns unit. -/
def find_first_file (pattern : RStr) : List NativeCall × Option Unit :=
  match cstring? pattern with
  | none => ([], none)
  | some p => ([NativeCall.findFirstFile p], some ())

/-- `GFXFileManager::import_directory` (lines 355–362): three `cstring!`
conversions in source order, then one native call. -/
def import_directory (ret : Int) (srcdir dstdir dir_name : RStr)
    (create_target_dir : Bool) : List NativeCall × Option Int :=
  match cstring? srcdir with
  | none => ([], none)
  | some s =>
    match cstring? dstdir with
    | none => ([], none)
    | some d =>
      match cstring? dir_name with
      | none => ([], none)
      | some n => ([NativeCall.importDir s d n create_target_dir], some ret)

/-- `GFXFileManager::import_file` (lines 364–371). -/
def import_file (ret : Int) (srcdir dstdir filename : RStr)
    (create_target_dir : Bool) : List NativeCall × Option Int :=
  match cstring? srcdir with
  | none => ([], none)
  | some s =>
    match cstring? dstdir with
    | none => ([], none)
    | some d =>
      match cstring? filename with
      | none => ([], none)
      | some n => ([NativeCall.importFile s d n create_target_dir], some ret)

/-- `GFXFileManager::export_directory` (lines 373–378). -/
def export_directory (ret : Int) (srcdir dstdir dir_name : RStr)
    (create_target_dir : Bool) : List NativeCall × Option Int :=
  match cstring? srcdir with
  | none => ([], none)
  | some s =>
    match cstring? dstdir with
    | none => ([], none)
    | some d =>
      match cstring? dir_name with
      | none => ([], none)
      | some n => ([NativeCall.exportDir s d n create_target_dir], some ret)

/-- `GFXFileManager::export_file` (lines 380–385). -/
def export_file (ret : Int) (srcdir dstdir filename : RStr)
    (create_target_dir : Bool) : List NativeCall × Option Int :=
  match cstring? srcdir with
  | none => ([], none)
  | some s =>
    match cstring? dstdir with
    | none => ([], none)
    | some d =>
      match cstring? filename with
      | none => ([], none)
      | some n => ([NativeCall.exportFile s d n create_target_dir], some ret)

/-- `GFXFileManager::file_exists` (lines 387–390). -/
def file_exists (ret : Int) (name : RStr) (flags : Int) :
    List NativeCall × Option Int :=
  match cstring? name with
  | none => ([], none)
  | some n => ([NativeCall.fileExists n flags], some ret)

/-- `GFXFileManager::for_each_entry_in_container` (lines 396–399). -/
def for_each_entry_in_container (ret : Int) (filter : RStr) :
    List NativeCall × Option Int :=
  match cstring? filter with
  | none => ([], none)
  | some f => ([NativeCall.forEachEntry f], some ret)

end GFXFileManager

/-- The `as usize` cast applied to the `c_int` returned by the native
`get_dir_name` slot (line 284): on the 32-bit target this reinterprets
the 32-bit pattern as an unsigned value. -/
def i32ToUsize (len : Int) : Nat := (len % 2 ^ 32).toNat

/-- `Vec::truncate`: keeps the first `n` elements; a count at or above the
length leaves the vector unchanged, exactly as `List.take` does. -/
def rustTruncate (l : List Nat) (n : Nat) : List Nat := l.take n

/-- `Vec::truncate` at the first NUL byte, when one exists: the
`if let Some(null_pos) = buf.iter().position(|&x| x == 0)` pattern of
lines 297–299 and 321–323. -/
def truncAtNul (buf : List Nat) : List Nat :=
  match buf.indexOf? 0 with
  | some i => buf.take i
  | none => buf

/-- Marshalling shape of one fixed-buffer string query: how many bytes
the wrapper allocates for the out buffer, and which capacity value (if
any) the native slot is told. -/
structure BufferedQuery where
  bufLen : Nat
  sizeArg : Option Nat
deriving DecidableEq

/-- Buffer marshalling of `GFXFileManager::get_directory_name`
(lines 279–286): `Vec::with_capacity(255)` + `set_len(255)`, but the
size argument passed to the native `get_dir_name` slot is the literal
`200` (line 283). -/
def get_directory_name_query : BufferedQuery :=
  { bufLen := 255, sizeArg := some 200 }

/-- Buffer marshalling of `GFXFileManager::get_virtual_path`
(lines 293–301): a 255-byte buffer; the native `get_virtual_path` slot
takes only the buffer pointer, so no capacity is communicated. -/
def get_virtual_path_query : BufferedQuery :=
  { bufLen := 255, sizeArg := none }

/-- Buffer marshalling of `GFXFileManager::file_name_from_handle`
(lines 317–325): a 255-byte buffer; the size argument passed to the
native slot is the caller-supplied `count`, not the buffer length. -/
def file_name_from_handle_query (count : Nat) : BufferedQuery :=
  { bufLen := 255, sizeArg := some count }

/-- What the native `read`/`write` slot does on one call: the `c_int` it
returns, and the count it stores through the `bytes_read`/`bytes_written`
out-pointer. -/
structure NativeXfer where
  ret : Int
  count : Nat
deriving DecidableEq

namespace GFXFileManager

/-- Decode behaviour of `GFXFileManager::get_directory_name`
(lines 279–286). `buf` is the content of the 255-byte buffer after the
native `get_dir_name` call wrote into it, and `len` is the count that
call returned; the method truncates the buffer to that reported count
(`buf.truncate(len as usize)`) and runs `String::from_utf8` on the rest.
No search for a NUL terminator occurs in this method. -/
def get_directory_name (buf : List Nat) (len : Int) : Except (List Nat) (List Nat) :=
  string_from_utf8 (rustTruncate buf (i32ToUsize len))

/-- Decode behaviour of `GFXFileManager::get_virtual_path`
(lines 293–301): the native call return value is ignored, the buffer is
truncated at the first NUL byte if any, and the rest is decoded with
`String::from_utf8`. -/
def get_virtual_path (buf : List Nat) : Except (List Nat) (List Nat) :=
  string_from_utf8 (truncAtNul buf)

/-- Decode behaviour of `GFXFileManager::file_name_from_handle`
(lines 317–325): same NUL-truncation and decode as `get_virtual_path`. -/
def file_name_from_handle (buf : List Nat) : Except (List Nat) (List Nat) :=
  string_from_utf8 (truncAtNul buf)

/-- `GFXFileManager::read` (lines 228–230): forwards the buffer pointer,
the requested length and the caller-supplied `bytes_read` out-pointer to
the native slot verbatim and returns the slot result. Caller-observable
outcome: (returned status, value left at `*bytes_read`). The method never
writes to the out parameter itself and never compares the stored count
with the requested length. -/
def read (native : NativeXfer) (bytes_to_read : Int) : Int × Nat :=
  (native.ret, native.count)

/-- `GFXFileManager::write` (lines 233–235): identical forwarding for the
write slot and its `bytes_written` out-pointer. -/
def write (native : NativeXfer) (bytes_to_write : Int) : Int × Nat :=
  (native.ret, native.count)

/-- Native calls performed by the body of `impl Drop for GFXFileManager`
(lines 426–433): `close_all_files()`, then `is_open()`, then
`close_container()` only when `is_open` reported nonzero. `isOpenRet` is
the truth of the native `is_open` result. -/
def dropBody (isOpenRet : Bool) : List NativeCall :=
  [NativeCall.closeAllFiles, NativeCall.isOpen] ++
    (if isOpenRet then [NativeCall.closeContainer] else [])

/-- Native calls performed by dropping the fields of `GFXFileManager`
after its `Drop::drop` body ran. The only field is
`_file_manager: *mut IFileManager` (line 74); a raw pointer has no drop
glue in Rust, so no call is made — in particular the
`impl Drop for IFileManager` destructor is not run for the pointee. -/
def dropFields : List NativeCall := []

/-- Full native-call trace of dropping a `GFXFileManager`: the
`Drop::drop` body followed by the field drops. -/
def dropTrace (isOpenRet : Bool) : List NativeCall :=
  dropBody isOpenRet ++ dropFields

end GFXFileManager

namespace IFileManager

/-- Body of `impl Drop for IFileManager` (lines 507–513): a single
`GFXDllReleaseObject` call. No value of type `IFileManager` is ever owned
in the crate (the object lives behind the raw pointer produced by
`new_ptr`), so this destructor has no caller. -/
def dropBody : List NativeCall := [NativeCall.releaseObject]

/-- `IFileManager::new_ptr` (lines 500–504): `obj` starts as `null_mut()`
and `GFXDllCreateObject` is handed `&mut obj`; the function returns
whatever that call left in `obj`, without any check. Pointers are
modelled as `Nat` with `0` for null; `factoryWrite` is the value the
native factory stores through the out-pointer, or `none` when it leaves
the slot untouched. -/
def new_ptr (factoryWrite : Option Nat) : Nat :=
  match factoryWrite with
  | some p => p
  | none => 0

end IFileManager

/-! Shared helper lemmas about the `cstring!` model. -/

theorem cstring?_eq_none {s : RStr} (h : hasNul s = true) : cstring? s = none := by
  simp [cstring?, h]

theorem cstring?_eq_some {s : RStr} (h : hasNul s = false) :
    cstring? s = some (s ++ [0]) := by
  simp [cstring?, h]

/-- C1: on drop of a `GFXFileManager`, the wrapper first closes all
outstanding file handles, then closes the container when `is_open`
reports it open — but the foreign object is never released: the
`GFXDllReleaseObject` call lives only in the `IFileManager` destructor,
which the raw-pointer field does not run, so `releaseObject` appears in
no drop trace. The claimed final release step does not happen. -/
theorem c1_drop_never_releases_foreign_object :
    (∀ isOpenRet : Bool,
      (GFXFileManager.dropTrace isOpenRet).contains NativeCall.releaseObject = false) ∧
    GFXFileManager.dropTrace true =
      [NativeCall.closeAllFiles, NativeCall.isOpen, NativeCall.closeContainer] ∧
    GFXFileManager.dropTrace false = [NativeCall.closeAllFiles, NativeCall.isOpen] ∧
    IFileManager.dropBody = [NativeCall.releaseObject] := by
  refine ⟨fun b => ?_, rfl, rfl, rfl⟩
  cases b <;> rfl

/-- C2 counterexample: on a call where the native close reports 0 (the
container is already closed), `close_container` still issues the native
close call, and no `is_open` query appears in its trace — the method does
not check the open state before delegating. -/
theorem c2_close_container_no_open_check :
    GFXFileManager.close_container 0 = ([NativeCall.closeContainer], false) ∧
    (GFXFileManager.close_container 0).1.contains NativeCall.isOpen = false :=
  ⟨rfl, rfl⟩

/-- C2 amended: the public `close_container` delegates to the native
close unconditionally and returns its nonzero test; the `is_open` check
exists only in the `Drop` implementation, which skips the native close
when `is_open` reports the container closed. -/
theorem c2_close_container_unconditional :
    (∀ ret : Int,
      GFXFileManager.close_container ret = ([NativeCall.closeContainer], ret != 0)) ∧
    GFXFileManager.dropBody false = [NativeCall.closeAllFiles, NativeCall.isOpen] ∧
    (GFXFileManager.dropBody false).contains NativeCall.closeContainer = false :=
  ⟨fun _ => rfl, rfl, rfl⟩

/-- C3: decoding each supported access-mode pattern (0, 0x80000000,
0x40000000) and container-mode value (1, 2) round-trips with the
discriminant encoding, and every unsupported value is rejected fatally
(the wildcard panic, `none` here) instead of returning a value. -/
theorem c3_enum_decode_roundtrip :
    (∀ a : Access, Access.fromU32 a.toU32 = some a) ∧
    (Access.fromU32 0 = some Access.OpenExisting ∧
     Access.fromU32 0x80000000 = some Access.ShareRead ∧
     Access.fromU32 0x40000000 = some Access.CreateAlways) ∧
    (∀ m : Mode, Mode.fromI32 m.toI32 = some m) ∧
    (Mode.fromI32 1 = some Mode.CP ∧ Mode.fromI32 2 = some Mode.CW) ∧
    (∀ u : Nat, u ≠ 0 → u ≠ 0x80000000 → u ≠ 0x40000000 →
      Access.fromU32 u = none) ∧
    (∀ i : Int, i ≠ 1 → i ≠ 2 → Mode.fromI32 i = none) := by
  refine ⟨fun a => ?_, ⟨rfl, rfl, rfl⟩, fun m => ?_, ⟨rfl, rfl⟩,
    fun u h1 h2 h3 => ?_, fun i h1 h2 => ?_⟩
  · cases a <;> rfl
  · cases m <;> rfl
  · simp [Access.fromU32, h1, h2, h3]
  · simp [Mode.fromI32, h1, h2]

/-- C3 witness: the rejected value named by the claim, 0x12345678, is
refused by both decoders. -/
theorem c3_enum_decode_roundtrip_witness :
    Access.fromU32 0x12345678 = none ∧ Mode.fromI32 0x12345678 = none :=
  ⟨c3_enum_decode_roundtrip.2.2.2.2.1 0x12345678 (by decide) (by decide) (by decide),
   c3_enum_decode_roundtrip.2.2.2.2.2 0x12345678 (by decide) (by decide)⟩

/-- C4: with a native result shorter than 255 bytes,
`get_directory_name` truncates the buffer at the count the native call
returned (the count-returning form the claim allows) and decodes the
remaining bytes as UTF-8, returning exactly those bytes on success and a
decode-failure `error` carrying them — never a panic, a silent
truncation, or a byte replacement; `get_virtual_path` does the same
after truncating at the first NUL. -/
theorem c4_decode_utf8 :
    ∀ (buf : List Nat) (len : Int), buf.length = 255 → 0 ≤ len → len < 255 →
      (GFXFileManager.get_directory_name buf len =
        string_from_utf8 (buf.take len.toNat)) ∧
      (utf8Valid (buf.take len.toNat) = true →
        GFXFileManager.get_directory_name buf len = Except.ok (buf.take len.toNat)) ∧
      (utf8Valid (buf.take len.toNat) = false →
        GFXFileManager.get_directory_name buf len =
          Except.error (buf.take len.toNat)) ∧
      (utf8Valid (truncAtNul buf) = true →
        GFXFileManager.get_virtual_path buf = Except.ok (truncAtNul buf)) ∧
      (utf8Valid (truncAtNul buf) = false →
        GFXFileManager.get_virtual_path buf = Except.error (truncAtNul buf)) := by
  intro buf len _hbuf h0 h255
  have hm : len % 2 ^ 32 = len := Int.emod_eq_of_lt h0 (by omega)
  have hi : i32ToUsize len = len.toNat := by unfold i32ToUsize; rw [hm]
  refine ⟨?_, fun h => ?_, fun h => ?_, fun h => ?_, fun h => ?_⟩ <;>
    simp [GFXFileManager.get_directory_name, GFXFileManager.get_virtual_path,
      rustTruncate, hi, string_from_utf8, *]

/-- C4 witness: a buffer whose reported two bytes are not valid UTF-8
(0x41 followed by the invalid byte 0xFF) yields the decode-failure
result carrying exactly those bytes. -/
theorem c4_decode_utf8_witness :
    GFXFileManager.get_directory_name (65 :: 255 :: List.replicate 253 66) 2 =
      Except.error [65, 255] := by
  have h := c4_decode_utf8 (65 :: 255 :: List.replicate 253 66) 2
    (by rw [List.length_cons, List.length_cons, List.length_replicate])
    (by decide) (by decide)
  exact h.2.2.1 (by decide)

/-- C5 counterexample: `get_directory_name` allocates the 255-byte
buffer but tells the native slot a capacity of 200, not the full 255 —
the claim that every query communicates the full 255-byte capacity fails
on this method. -/
theorem c5_size_arg_not_full_capacity :
    get_directory_name_query.bufLen = 255 ∧
    get_directory_name_query.sizeArg = some 200 ∧
    get_directory_name_query.sizeArg ≠ some get_directory_name_query.bufLen := by
  refine ⟨rfl, rfl, by decide⟩

/-- C5 amended: all three queries allocate a 255-byte buffer, but the
capacity value told to the native component is 200 for
`get_directory_name`, absent for `get_virtual_path` (the slot takes no
size), and the caller-supplied count for `file_name_from_handle`. -/
theorem c5_buffer_shapes :
    get_directory_name_query = ⟨255, some 200⟩ ∧
    get_virtual_path_query = ⟨255, none⟩ ∧
    ∀ count : Nat, file_name_from_handle_query count = ⟨255, some count⟩ :=
  ⟨rfl, rfl, fun _ => rfl⟩

/-- C6: `read` and `write` hand the caller exactly the count the native
slot stored through the forwarded out-pointer, together with the native
status, regardless of the requested length — a count smaller than the
request is passed along unchanged, with no error branch. -/
theorem c6_transfer_count_passthrough :
    ∀ (native : NativeXfer) (requested : Int),
      GFXFileManager.read native requested = (native.ret, native.count) ∧
      GFXFileManager.write native requested = (native.ret, native.count) :=
  fun _ _ => ⟨rfl, rfl⟩

/-- C7: for NUL-free inputs, `create_container` and `open_container`
issue exactly one native call and surface its result as the boolean
nonzero test — a native rejection (result 0) comes back as `false`, not
as a panic (`some` result), and nothing beyond the boolean is produced. -/
theorem c7_container_open_boolean :
    ∀ (ret mode : Int) (filename password : RStr),
      hasNul filename = false → hasNul password = false →
      (GFXFileManager.create_container ret filename password =
        ([NativeCall.createContainer (filename ++ [0]) (password ++ [0])],
          some (ret != 0))) ∧
      (GFXFileManager.open_container ret filename password mode =
        ([NativeCall.openContainer (filename ++ [0]) (password ++ [0]) mode],
          some (ret != 0))) ∧
      (ret = 0 →
        (GFXFileManager.create_container ret filename password).2 = some false ∧
        (GFXFileManager.open_container ret filename password mode).2 = some false) := by
  intro ret mode f p hf hp
  refine ⟨?_, ?_, fun h => ?_⟩
  · simp [GFXFileManager.create_container, cstring?_eq_some hf, cstring?_eq_some hp]
  · simp [GFXFileManager.open_container, cstring?_eq_some hf, cstring?_eq_some hp]
  · subst h
    simp [GFXFileManager.create_container, GFXFileManager.open_container,
      cstring?_eq_some hf, cstring?_eq_some hp]

/-- C7 witness: a rejected native create (result 0) on concrete NUL-free
strings surfaces as the value `false`. -/
theorem c7_container_open_boolean_witness :
    (GFXFileManager.create_container 0 [97] [98]).2 = some false :=
  ((c7_container_open_boolean 0 1 [97] [98] rfl rfl).2.2 rfl).1

/-- C8 counterexample: when the native factory leaves the out-pointer
untouched, construction yields a null `_file_manager` (0 in the pointer
model) — the wrapper performs no check, so non-nullity is not
established at construction. -/
theorem c8_new_ptr_can_be_null : IFileManager.new_ptr none = 0 := rfl

/-- C8 amended: `_file_manager` holds exactly the value the native
factory stored through the out-pointer; the slot starts as null and the
wrapper adds no check, so the pointer is non-null only when the factory
stored a non-null value. -/
theorem c8_pointer_from_factory :
    (∀ p : Nat, IFileManager.new_ptr (some p) = p) ∧
    IFileManager.new_ptr none = 0 :=
  ⟨fun _ => rfl, rfl⟩

/-- C9: for every public operation that takes a string argument, an
input holding a NUL byte makes the `cstring!` conversion panic (`none`)
before the native call, so the operation issues no native call at all
(empty trace). -/
theorem c9_nul_byte_panics_before_native_call :
    (∀ (ret : Int) (f p : RStr), hasNul f = true ∨ hasNul p = true →
      GFXFileManager.create_container ret f p = ([], none)) ∧
    (∀ (ret : Int) (f p : RStr) (m : Int), hasNul f = true ∨ hasNul p = true →
      GFXFileManager.open_container ret f p m = ([], none)) ∧
    (∀ (ret : Int) (f : RStr) (a : Access) (u : Int), hasNul f = true →
      GFXFileManager.open_file ret f a u = ([], none)) ∧
    (∀ (ret : Int) (f : RStr) (a : Access) (u : Int), hasNul f = true →
      GFXFileManager.open_file_cj ret f a u = ([], none)) ∧
    (∀ (ret : Int) (f : RStr) (u : Int), hasNul f = true →
      GFXFileManager.create_file ret f u = ([], none)) ∧
    (∀ (ret : Int) (f : RStr) (u : Int), hasNul f = true →
      GFXFileManager.create_file_cj ret f u = ([], none)) ∧
    (∀ (ret : Int) (f : RStr), hasNul f = true →
      GFXFileManager.delete_file ret f = ([], none)) ∧
    (∀ (ret : Int) (n : RStr), hasNul n = true →
      GFXFileManager.create_directory ret n = ([], none)) ∧
    (∀ (ret : Int) (n : RStr), hasNul n = true →
      GFXFileManager.delete_directory ret n = ([], none)) ∧
    (∀ (ret : Int) (n : RStr), hasNul n = true →
      GFXFileManager.change_directory ret n = ([], none)) ∧
    (∀ (ret : Int) (n : RStr), hasNul n = true →
      GFXFileManager.set_virtual_path ret n = ([], none)) ∧
    (∀ pat : RStr, hasNul pat = true →
      GFXFileManager.find_first_file pat = ([], none)) ∧
    (∀ (ret : Int) (s d n : RStr) (fl : Bool),
      hasNul s = true ∨ hasNul d = true ∨ hasNul n = true →
      GFXFileManager.import_directory ret s d n fl = ([], none)) ∧
    (∀ (ret : Int) (s d n : RStr) (fl : Bool),
      hasNul s = true ∨ hasNul d = true ∨ hasNul n = true →
      GFXFileManager.import_file ret s d n fl = ([], none)) ∧
    (∀ (ret : Int) (s d n : RStr) (fl : Bool),
      hasNul s = true ∨ hasNul d = true ∨ hasNul n = true →
      GFXFileManager.export_directory ret s d n fl = ([], none)) ∧
    (∀ (ret : Int) (s d n : RStr) (fl : Bool),
      hasNul s = true ∨ hasNul d = true ∨ hasNul n = true →
      GFXFileManager.export_file ret s d n fl = ([], none)) ∧
    (∀ (ret : Int) (n : RStr) (fl : Int), hasNul n = true →
      GFXFileManager.file_exists ret n fl = ([], none)) ∧
    (∀ (ret : Int) (f : RStr), hasNul f = true →
      GFXFileManager.for_each_entry_in_container ret f = ([], none)) := by
  refine ⟨?_, ?_, ?_, ?_, ?_, ?_, ?_, ?_, ?_, ?_, ?_, ?_, ?_, ?_, ?_, ?_, ?_, ?_⟩
  · intro ret f p h
    rcases h with h | h
    · simp [GFXFileManager.create_container, cstring?_eq_none h]
    · cases hf : cstring? f <;>
        simp [GFXFileManager.create_container, hf, cstring?_eq_none h]
  · intro ret f p m h
    rcases h with h | h
    · simp [GFXFileManager.open_container, cstring?_eq_none h]
    · cases hf : cstring? f <;>
        simp [GFXFileManager.open_container, hf, cstring?_eq_none h]
  · intro ret f a u h
    simp [GFXFileManager.open_file, cstring?_eq_none h]
  · intro ret f a u h
    simp [GFXFileManager.open_file_cj, cstring?_eq_none h]
  · intro ret f u h
    simp [GFXFileManager.create_file, cstring?_eq_none h]
  · intro ret f u h
    simp [GFXFileManager.create_file_cj, cstring?_eq_none h]
  · intro ret f h
    simp [GFXFileManager.delete_file, cstring?_eq_none h]
  · intro ret n h
    simp [GFXFileManager.create_directory, cstring?_eq_none h]
  · intro ret n h
    simp [GFXFileManager.delete_directory, cstring?_eq_none h]
  · intro ret n h
    simp [GFXFileManager.change_directory, cstring?_eq_none h]
  · intro ret n h
    simp [GFXFileManager.set_virtual_path, cstring?_eq_none h]
  · intro pat h
    simp [GFXFileManager.find_first_file, cstring?_eq_none h]
  · intro ret s d n fl h
    rcases h with h | h | h
    · simp [GFXFileManager.import_directory, cstring?_eq_none h]
    · cases hs : cstring? s <;>
        simp [GFXFileManager.import_directory, hs, cstring?_eq_none h]
    · cases hs : cstring? s <;> cases hd : cstring? d <;>
        simp [GFXFileManager.import_directory, hs, hd, cstring?_eq_none h]
  · intro ret s d n fl h
    rcases h with h | h | h
    · simp [GFXFileManager.import_file, cstring?_eq_none h]
    · cases hs : cstring? s <;>
        simp [GFXFileManager.import_file, hs, cstring?_eq_none h]
    · cases hs : cstring? s <;> cases hd : cstring? d <;>
        simp [GFXFileManager.import_file, hs, hd, cstring?_eq_none h]
  · intro ret s d n fl h
    rcases h with h | h | h
    · simp [GFXFileManager.export_directory, cstring?_eq_none h]
    · cases hs : cstring? s <;>
        simp [GFXFileManager.export_directory, hs, cstring?_eq_none h]
    · cases hs : cstring? s <;> cases hd : cstring? d <;>
        simp [GFXFileManager.export_directory, hs, hd, cstring?_eq_none h]
  · intro ret s d n fl h
    rcases h with h | h | h
    · simp [GFXFileManager.export_file, cstring?_eq_none h]
    · cases hs : cstring? s <;>
        simp [GFXFileManager.export_file, hs, cstring?_eq_none h]
    · cases hs : cstring? s <;> cases hd : cstring? d <;>
        simp [GFXFileManager.export_file, hs, hd, cstring?_eq_none h]
  · intro ret n fl h
    simp [GFXFileManager.file_exists, cstring?_eq_none h]
  · intro ret f h
    simp [GFXFileManager.for_each_entry_in_container, cstring?_eq_none h]

/-- C9 witness: a filename with an interior NUL byte makes
`create_container` panic with an empty native-call trace. -/
theorem c9_nul_byte_panics_before_native_call_witness :
    GFXFileManager.create_container 1 [102, 0, 111] [112] = ([], none) :=
  c9_nul_byte_panics_before_native_call.1 1 [102, 0, 111] [112]
    (Or.inl (by decide))

/-- C10: the `as i32` cast of each `Access` variant preserves its 32-bit
pattern: `OpenExisting` to 0, `CreateAlways` to 0x40000000, and
`ShareRead` to the negative `i32` whose unsigned pattern is 0x80000000;
in general the cast equals the declared discriminant modulo 2^32. -/
theorem c10_access_cast_bit_pattern :
    Access.toI32 Access.OpenExisting = 0 ∧
    Access.toI32 Access.CreateAlways = 0x40000000 ∧
    Access.toI32 Access.ShareRead = -(2 ^ 31) ∧
    Access.toI32 Access.ShareRead % 2 ^ 32 = 0x80000000 ∧
    (∀ a : Access, Access.toI32 a % 2 ^ 32 = (a.discr % 2 ^ 32 : Nat)) := by
  refine ⟨rfl, rfl, by decide, by decide, fun a => ?_⟩
  cases a <;> decide

end GFX
